import Mathlib

/-!
Verification of the criteria-pattern repository: a shallow embedding of the
Criteria expression model, the `FilterOperator` catalog
(src/criteria_pattern/filter_operator.py), the raw SQL compiler
(src/criteria_pattern/converter/sql_converter.py) and the in-memory evaluator
(src/criteria_pattern/parser.py), together with theorems settling the frozen
claims about them.

Python-level behaviour is embedded explicitly:
- `Value` models the Python values flowing through records and filters
  (`None`, `str`, `int`, `bool`, and `list`/`tuple` collapsed into one
  list constructor, since the code only ever tests `isinstance(x, list | tuple)`).
- Exceptions are modelled with `Except PyErr`; `PyErr.attributeError` stands for
  Python's `AttributeError`, raised in particular when code looks up an
  attribute the `FilterOperator` enum does not define.
- `FilterOperator` is a Python `StrEnum`.  Enum members that are *assigned a
  value an earlier member already holds* become aliases of that earlier member,
  not new members.  In src/criteria_pattern/filter_operator.py the assignments
  `CONTAINS = 'LIKE'`, `NOT_CONTAINS = 'NOT LIKE'`, `STARTS_WITH = 'LIKE'` and
  `ENDS_WITH = 'LIKE'` therefore alias those names to the `LIKE` / `NOT_LIKE`
  members, and the enum has only 14 distinct members.  The names
  `NOT_STARTS_WITH` and `NOT_ENDS_WITH` are not defined at all, although
  parser.py and sql_converter.py both reference them; evaluating those
  references raises `AttributeError`.
-/

namespace CriteriaPattern

/-- Embeds the Python values the repository manipulates: `None`, strings,
integers, booleans, and sequences (`list` and `tuple` are collapsed because the
source only distinguishes them from scalars via `isinstance(x, list | tuple)`). -/
inductive Value : Type where
  | null : Value
  | str (s : String) : Value
  | int (n : Int) : Value
  | bool (b : Bool) : Value
  | list (vs : List Value) : Value

/-- Tests whether a value is Python's `None` (the missing/null sentinel). -/
def Value.isNull : Value → Bool
  | .null => true
  | _ => false

/-- Tests whether a value is a Python `str` (`isinstance(obj_value, str)`). -/
def Value.isStr : Value → Bool
  | .str _ => true
  | _ => false

/-- Tests whether a value is a 2-element `list`/`tuple`, the shape the source
requires of BETWEEN / NOT BETWEEN filter values
(`isinstance(filter_value, list | tuple) and len(filter_value) == 2`). -/
def Value.isTwoElementList : Value → Bool
  | .list (_ :: _ :: []) => true
  | _ => false

/-- Embeds the distinct members of the `FilterOperator` StrEnum of
src/criteria_pattern/filter_operator.py.  Of the 18 names assigned in the
source, only these 14 are distinct members: `CONTAINS`, `NOT_CONTAINS`,
`STARTS_WITH` and `ENDS_WITH` reuse the string values `'LIKE'` / `'NOT LIKE'`
and are therefore Python enum aliases, defined below as plain abbreviations. -/
inductive FilterOperator : Type where
  | EQUAL
  | NOT_EQUAL
  | GREATER
  | GREATER_OR_EQUAL
  | LESS
  | LESS_OR_EQUAL
  | LIKE
  | NOT_LIKE
  | IN
  | NOT_IN
  | IS_NULL
  | IS_NOT_NULL
  | BETWEEN
  | NOT_BETWEEN
deriving DecidableEq, Repr, Fintype

/-- Embeds the alias `CONTAINS = 'LIKE'`: the value `'LIKE'` is already held by
the `LIKE` member, so Python's enum machinery makes `CONTAINS` an alias of the
`LIKE` member rather than a distinct variant. -/
def FilterOperator.CONTAINS : FilterOperator := .LIKE

/-- Embeds the alias `NOT_CONTAINS = 'NOT LIKE'`, an alias of `NOT_LIKE`. -/
def FilterOperator.NOT_CONTAINS : FilterOperator := .NOT_LIKE

/-- Embeds the alias `STARTS_WITH = 'LIKE'`, an alias of `LIKE`. -/
def FilterOperator.STARTS_WITH : FilterOperator := .LIKE

/-- Embeds the alias `ENDS_WITH = 'LIKE'`, an alias of `LIKE`. -/
def FilterOperator.ENDS_WITH : FilterOperator := .LIKE

/-- The string value of each StrEnum member; `str(member)` and f-string
interpolation of a StrEnum member produce this value. -/
def FilterOperator.value : FilterOperator → String
  | .EQUAL => "="
  | .NOT_EQUAL => "!="
  | .GREATER => ">"
  | .GREATER_OR_EQUAL => ">="
  | .LESS => "<"
  | .LESS_OR_EQUAL => "<="
  | .LIKE => "LIKE"
  | .NOT_LIKE => "NOT LIKE"
  | .IN => "IN"
  | .NOT_IN => "NOT IN"
  | .IS_NULL => "IS NULL"
  | .IS_NOT_NULL => "IS NOT NULL"
  | .BETWEEN => "BETWEEN"
  | .NOT_BETWEEN => "NOT BETWEEN"

/-- Embeds attribute lookup on the `FilterOperator` class: the 18 names written
in src/criteria_pattern/filter_operator.py resolve to their (possibly aliased)
member, and any other name — in particular `NOT_STARTS_WITH` and
`NOT_ENDS_WITH`, which parser.py and sql_converter.py reference — raises
`AttributeError`, modelled as `none`. -/
def FilterOperator.memberNamed : String → Option FilterOperator
  | "EQUAL" => some .EQUAL
  | "NOT_EQUAL" => some .NOT_EQUAL
  | "GREATER" => some .GREATER
  | "GREATER_OR_EQUAL" => some .GREATER_OR_EQUAL
  | "LESS" => some .LESS
  | "LESS_OR_EQUAL" => some .LESS_OR_EQUAL
  | "LIKE" => some .LIKE
  | "NOT_LIKE" => some .NOT_LIKE
  | "IN" => some .IN
  | "NOT_IN" => some .NOT_IN
  | "IS_NULL" => some .IS_NULL
  | "IS_NOT_NULL" => some .IS_NOT_NULL
  | "BETWEEN" => some .BETWEEN
  | "NOT_BETWEEN" => some .NOT_BETWEEN
  | "CONTAINS" => some .CONTAINS
  | "NOT_CONTAINS" => some .NOT_CONTAINS
  | "STARTS_WITH" => some .STARTS_WITH
  | "ENDS_WITH" => some .ENDS_WITH
  | _ => none

/-- The 14 distinct members of the embedded enum, in source declaration order. -/
def FilterOperator.members : List FilterOperator :=
  [.EQUAL, .NOT_EQUAL, .GREATER, .GREATER_OR_EQUAL, .LESS, .LESS_OR_EQUAL,
   .LIKE, .NOT_LIKE, .IN, .NOT_IN, .IS_NULL, .IS_NOT_NULL, .BETWEEN, .NOT_BETWEEN]

/-- Modelled from the spec: the `Filter` class (field, operator, value) lives in
src/criteria_pattern/filter.py, a file absent from src/; spec section 3 fixes its
shape as a record of field name, operator and value. -/
structure Filter : Type where
  field : String
  operator : FilterOperator
  value : Value

/-- Embeds the `OrderDirection` enum of src/criteria_pattern/order_direction.py. -/
inductive OrderDirection : Type where
  | ASC
  | DESC
deriving DecidableEq, Repr

/-- Modelled from the spec: the `Order` class (field, direction) is absent from
src/; spec section 3 fixes it as a record of field name and direction. -/
structure Order : Type where
  field : String
  direction : OrderDirection

/-- Embeds the Criteria expression tree of src/criteria_pattern/criteria.py:
a base `Criteria(filters)` leaf, `AndCriteria(left, right)` and
`OrCriteria(left, right)`.  The `not` node embeds `NotCriteria`, which
parser.py and sql_converter.py import and dispatch on but whose class is absent
from src/criteria.py; it is modelled from the spec as `Not{inner}`.  Leaf
orders are modelled from the spec (section 3) since src/criteria.py carries no
orders even though sql_converter.py renders `criteria.orders`. -/
inductive Criteria : Type where
  | leaf (filters : List Filter) (orders : List Order) : Criteria
  | and (left right : Criteria) : Criteria
  | or (left right : Criteria) : Criteria
  | not (inner : Criteria) : Criteria

/-- Embeds Python attribute access `criteria._filters`: only instances of the
base `Criteria` class (leaves) ever assign the `_filters` attribute — the
`AndCriteria`, `OrCriteria` (and modelled `NotCriteria`) constructors assign
only their children — so the access raises `AttributeError` (here `none`) on
every composite node. -/
def underscoreFilters : Criteria → Option (List Filter)
  | .leaf fs _ => some fs
  | _ => none

/-- Embeds the `filters` property of src/criteria_pattern/criteria.py: the base
class returns `self._filters`; `AndCriteria.filters` and `OrCriteria.filters`
return `self.left._filters + self.right._filters`, accessing the `_filters`
attribute of their immediate children directly (lines 169-178 and 230-239)
rather than recursing through the `filters` property.  The `not` case is
modelled from the spec: `NotCriteria` is absent from src/criteria.py, and spec
section 3 makes a Not node contribute the Leaf descendants of its inner
expression. -/
def filtersProperty : Criteria → Option (List Filter)
  | .leaf fs _ => some fs
  | .and l r =>
    match underscoreFilters l, underscoreFilters r with
    | some a, some b => some (a ++ b)
    | _, _ => none
  | .or l r =>
    match underscoreFilters l, underscoreFilters r with
    | some a, some b => some (a ++ b)
    | _, _ => none
  | .not c => filtersProperty c

/-- Modelled from the spec: the flattened filters view of section 3 —
`filters(e)` is the recursive union, depth-first and left-to-right, of the
Filters of all Leaf descendants.  It is stated separately from
`filtersProperty` (the view the source actually computes) so the two can be
compared. -/
def specFilters : Criteria → List Filter
  | .leaf fs _ => fs
  | .and l r => specFilters l ++ specFilters r
  | .or l r => specFilters l ++ specFilters r
  | .not c => specFilters c

/-- Modelled from the spec: the flattened orders view, analogous to
`specFilters` (spec section 3). -/
def specOrders : Criteria → List Order
  | .leaf _ os => os
  | .and l r => specOrders l ++ specOrders r
  | .or l r => specOrders l ++ specOrders r
  | .not c => specOrders c

/-- Modelled from the spec: `Criteria.has_filters` is called by parser.py and
sql_converter.py but not defined in src/criteria.py; spec section 4.2 defines it
as "true iff the flattened view (section 3) is non-empty". -/
def hasFilters (e : Criteria) : Bool := !(specFilters e).isEmpty

/-- Modelled from the spec: `Criteria.has_orders`, analogous to `hasFilters`. -/
def hasOrders (e : Criteria) : Bool := !(specOrders e).isEmpty

/-- Embeds the Python exceptions the evaluator and compiler can raise:
`AttributeError` (a missing attribute, in particular the undefined enum members
`NOT_STARTS_WITH` / `NOT_ENDS_WITH`), `ValueError` with its message, and
`TypeError` (comparison of incompatible value kinds). -/
inductive PyErr : Type where
  | attributeError
  | valueError (msg : String)
  | typeError
deriving DecidableEq, Repr

/-- Coerces a Python bool to the int Python uses for mixed bool/int
comparisons (`bool` is a subclass of `int`; `True == 1`). -/
def boolInt (b : Bool) : Int := if b then 1 else 0

/-- Fuel-indexed embedding of Python `==` between the value kinds the
repository manipulates: numbers compare numerically (with `bool` coerced to
int), strings compare as strings, lists compare elementwise, `None` equals only
`None`, and every other cross-kind comparison is `False` (Python `==` never
raises here).  The fuel only bounds the recursion depth so the definition stays
kernel-computable; `pyEq` supplies fuel strictly larger than the structural
depth of its arguments, so the fuel-0 branch is unreachable. -/
def pyEqF : Nat → Value → Value → Bool
  | 0, _, _ => false
  | _ + 1, .null, .null => true
  | _ + 1, .int a, .int b => a == b
  | _ + 1, .int a, .bool b => a == boolInt b
  | _ + 1, .bool a, .int b => boolInt a == b
  | _ + 1, .bool a, .bool b => a == b
  | _ + 1, .str a, .str b => a == b
  | fuel + 1, .list (a :: as), .list (b :: bs) =>
    pyEqF fuel a b && pyEqF fuel (.list as) (.list bs)
  | _ + 1, .list [], .list [] => true
  | _ + 1, _, _ => false

/-- Structural measure used only to supply adequate fuel to `pyEqF` and
`pyCmpF`: it dominates the structural depth of a value. -/
def Value.fuel : Value → Nat
  | .list (v :: vs) => 1 + Value.fuel v + Value.fuel (.list vs)
  | _ => 1

/-- Embeds Python `==` on values (see `pyEqF`). -/
def pyEq (a b : Value) : Bool := pyEqF (a.fuel + b.fuel) a b

/-- Fuel-indexed embedding of Python's rich comparison between the value kinds
the repository manipulates: `some` ordering on int/int (and bool coerced to
int), str/str and list/list (lexicographic), and `none` — a `TypeError` — on
every other pair, matching Python raising on e.g. `int < str`.  As with
`pyEqF`, the fuel only keeps the definition kernel-computable and is never
exhausted when supplied by `pyCmp`. -/
def pyCmpF : Nat → Value → Value → Option Ordering
  | 0, _, _ => none
  | _ + 1, .int a, .int b => some (compare a b)
  | _ + 1, .int a, .bool b => some (compare a (boolInt b))
  | _ + 1, .bool a, .int b => some (compare (boolInt a) b)
  | _ + 1, .bool a, .bool b => some (compare (boolInt a) (boolInt b))
  | _ + 1, .str a, .str b => some (compare a b)
  | fuel + 1, .list (a :: as), .list (b :: bs) =>
    match pyCmpF fuel a b with
    | some .eq => pyCmpF fuel (.list as) (.list bs)
    | r => r
  | _ + 1, .list [], .list [] => some .eq
  | _ + 1, .list [], .list (_ :: _) => some .lt
  | _ + 1, .list (_ :: _), .list [] => some .gt
  | _ + 1, _, _ => none

/-- Embeds Python ordering comparisons on values (see `pyCmpF`). -/
def pyCmp (a b : Value) : Option Ordering := pyCmpF (a.fuel + b.fuel) a b

/-- Runs a Python ordering comparison, raising `TypeError` on incomparable
kinds, and returns the boolean the given ordering predicate assigns. -/
def ordExcept (p : Ordering → Bool) (a b : Value) : Except PyErr Bool :=
  match pyCmp a b with
  | some o => .ok (p o)
  | none => .error .typeError

/-- Embeds Python `a <= b` on values (used by the chained comparison of the
BETWEEN branch), raising `TypeError` on incomparable kinds. -/
def pyLe (a b : Value) : Except PyErr Bool :=
  ordExcept (fun o => !(o == .gt)) a b

/-- Token of the regular expression produced by the parser's LIKE translation
`filter_value.replace('%', '.*').replace('_', '.')`: `'%'` becomes `.*` (any
run of characters), `'_'` and a literal `'.'` both become the regex `.` (any
single character), and every other character matches literally.  Other regex
metacharacters that could survive the translation (`*`, `+`, `(`, ...) are not
modelled; no claim exercises them. -/
inductive RTok : Type where
  | lit (c : Char)
  | anyChar
  | anySeq
deriving DecidableEq, Repr

/-- Translates a LIKE pattern into regex tokens (see `RTok`). -/
def likeToks : List Char → List RTok
  | [] => []
  | c :: rest =>
    (if c = '%' then RTok.anySeq
     else if c = '_' ∨ c = '.' then RTok.anyChar
     else RTok.lit c) :: likeToks rest

/-- Fuel-indexed matcher for `re.fullmatch` over the token language of `RTok`:
the whole target must be consumed (anchored at both ends).  Each recursive call
shrinks the tokens-plus-target measure, so the fuel supplied by
`likeFullmatch` (tokens + target + 1) is never exhausted. -/
def reFmF : Nat → List RTok → List Char → Bool
  | 0, _, _ => false
  | _ + 1, [], [] => true
  | _ + 1, [], _ :: _ => false
  | _ + 1, .lit _ :: _, [] => false
  | fuel + 1, .lit c :: ts, x :: xs => c == x && reFmF fuel ts xs
  | _ + 1, .anyChar :: _, [] => false
  | fuel + 1, .anyChar :: ts, _ :: xs => reFmF fuel ts xs
  | fuel + 1, .anySeq :: ts, s =>
    reFmF fuel ts s ||
      (match s with
       | [] => false
       | _ :: xs => reFmF fuel (.anySeq :: ts) xs)

/-- Embeds `re.fullmatch(pattern.replace('%', '.*').replace('_', '.'), target)`
from the LIKE branch of `_evaluate_filter` in src/criteria_pattern/parser.py. -/
def likeFullmatch (pattern target : String) : Bool :=
  let ts := likeToks pattern.data
  reFmF (ts.length + target.data.length + 1) ts target.data

/-- A record (the dictionary `obj` validated by parser.py). -/
abbrev Record := List (String × Value)

/-- Embeds `obj.get(filter.field)`: the field's value, or `None` when the key
is missing (Python `dict.get` defaults to `None`). -/
def recordGet (rec : Record) (k : String) : Value :=
  match rec.find? (fun p => p.1 == k) with
  | some p => p.2
  | none => .null

/-- Embeds `_evaluate_filter(obj_value, filter)` of src/criteria_pattern/parser.py
(lines 103-178), including the consequences of the StrEnum aliasing:

- `IS_NULL` / `IS_NOT_NULL` are tested first; then a `None` value makes every
  other operator return `False`.
- The six ordering/equality operators use Python comparison (`TypeError` on
  incompatible kinds).
- Inside the `isinstance(obj_value, str)` block, the branch
  `operator == FilterOperator.LIKE` also catches `CONTAINS`, `STARTS_WITH` and
  `ENDS_WITH` (they are the same enum member), and
  `operator == FilterOperator.NOT_LIKE` catches `NOT_CONTAINS`; the later
  `elif` tests of the chain are dead code until the chain evaluates
  `FilterOperator.NOT_STARTS_WITH`, a member the enum does not define, so any
  other operator applied to a string value raises `AttributeError`.
- `BETWEEN` / `NOT_BETWEEN` shape-check their value before the chained
  comparison `filter_value[0] <= obj_value <= filter_value[1]` (which
  short-circuits after a false first half).
- Any remaining operator raises `ValueError('Unsupported filter operator: ...')`
  with the member's string value interpolated.

A non-string LIKE/NOT_LIKE filter value would raise `AttributeError` at
`filter_value.replace`. -/
def evaluateFilter (objValue : Value) (f : Filter) : Except PyErr Bool :=
  let op := f.operator
  let fv := f.value
  if op = .IS_NULL then .ok objValue.isNull
  else if op = .IS_NOT_NULL then .ok (!objValue.isNull)
  else if objValue.isNull then .ok false
  else if op = .EQUAL then .ok (pyEq objValue fv)
  else if op = .NOT_EQUAL then .ok (!pyEq objValue fv)
  else if op = .GREATER then ordExcept (fun o => o == .gt) objValue fv
  else if op = .GREATER_OR_EQUAL then ordExcept (fun o => !(o == .lt)) objValue fv
  else if op = .LESS then ordExcept (fun o => o == .lt) objValue fv
  else if op = .LESS_OR_EQUAL then ordExcept (fun o => !(o == .gt)) objValue fv
  else
    match objValue with
    | .str s =>
      if op = .LIKE then
        match fv with
        | .str p => .ok (likeFullmatch p s)
        | _ => .error .attributeError
      else if op = .NOT_LIKE then
        match fv with
        | .str p => .ok (!likeFullmatch p s)
        | _ => .error .attributeError
      else .error .attributeError
    | _ =>
      if op = .BETWEEN then
        match fv with
        | .list (lo :: hi :: []) => do
          let b1 ← pyLe lo objValue
          if b1 then do
            let b2 ← pyLe objValue hi
            .ok b2
          else .ok false
        | _ => .error (.valueError "BETWEEN operator requires a 2-element list/tuple as value")
      else if op = .NOT_BETWEEN then
        match fv with
        | .list (lo :: hi :: []) => do
          let b1 ← pyLe lo objValue
          if b1 then do
            let b2 ← pyLe objValue hi
            .ok (!b2)
          else .ok true
        | _ => .error (.valueError "NOT BETWEEN operator requires a 2-element list/tuple as value")
      else .error (.valueError ("Unsupported filter operator: " ++ op.value))

/-- Embeds the base-case loop of `validate_object`: every filter of a leaf is
tested against the record; the first failing filter returns `False`, errors
propagate. -/
def evalLeafFilters (rec : Record) : List Filter → Except PyErr Bool
  | [] => .ok true
  | f :: rest => do
    let b ← evaluateFilter (recordGet rec f.field) f
    if b then evalLeafFilters rec rest else .ok false

/-- Embeds `validate_object(obj, criteria)` of src/criteria_pattern/parser.py
(lines 30-58): criteria without filters validate trivially; And / Or recurse
with Python's short-circuiting `and` / `or`; Not negates; a plain leaf tests
its filters in order.  `has_filters` is the spec-modelled `hasFilters`. -/
def validateObject (rec : Record) (e : Criteria) : Except PyErr Bool :=
  if hasFilters e then
    match e with
    | .and l r => do
      let a ← validateObject rec l
      if a then validateObject rec r else .ok false
    | .or l r => do
      let a ← validateObject rec l
      if a then .ok true else validateObject rec r
    | .not c => do
      let a ← validateObject rec c
      .ok (!a)
    | .leaf fs _ => evalLeafFilters rec fs
  else .ok true

/-- Parameter dictionary built by the SQL converter: an insertion-ordered
association list mirroring a Python `dict`. -/
abbrev Params := List (String × Value)

/-- Column-name mapping (`columns_mapping`). -/
abbrev Mapping := List (String × String)

/-- Embeds `columns_mapping.get(field, field)`. -/
def mappingGet (m : Mapping) (k : String) : String :=
  match m.find? (fun p => p.1 == k) with
  | some p => p.2
  | none => k

/-- Embeds `parameters[name] = value` on a Python dict: overwrite in place if
the key exists, else append. -/
def dictSet (d : Params) (k : String) (v : Value) : Params :=
  if d.any (fun p => p.1 == k) then
    d.map (fun p => if p.1 == k then (k, v) else p)
  else d ++ [(k, v)]

/-- Embeds `parameters.update(other)` on a Python dict. -/
def dictUpdate (d e : Params) : Params :=
  e.foldl (fun acc kv => dictSet acc kv.1 kv.2) d

namespace SqlConverter

/-- Embeds one iteration of the filter loop of
`SqlConverter._process_filters_recursive` (src/criteria_pattern/converter/
sql_converter.py, lines 144-236): the parameter slot is allocated first
(`parameters[parameter_name] = filter.value`; counter post-incremented), then
the `match filter.operator` dispatches.  Because of the StrEnum aliasing,
`case FilterOperator.LIKE` also catches `CONTAINS`, `STARTS_WITH` and
`ENDS_WITH` (same member, so those later cases are dead code) and
`case FilterOperator.NOT_LIKE` catches `NOT_CONTAINS`; for every remaining
member (`IN`, `NOT_IN`, `IS_NULL`, `IS_NOT_NULL`, `BETWEEN`, `NOT_BETWEEN`)
the match falls through to `case FilterOperator.NOT_STARTS_WITH:`, whose
pattern looks up a member the enum does not define and raises
`AttributeError`, so none of the later cases (wildcard templates, BETWEEN,
IS NULL) is reachable. -/
def renderFilterFragment (m : Mapping) (f : Filter) (params : Params)
    (counter : Nat) : Except PyErr (String × Params × Nat) :=
  let ffield := mappingGet m f.field
  let name := "parameter_" ++ toString counter
  let params1 := dictSet params name f.value
  let ph := "%(" ++ name ++ ")s"
  let c1 := counter + 1
  match f.operator with
  | .EQUAL => .ok (ffield ++ " = " ++ ph, params1, c1)
  | .NOT_EQUAL => .ok (ffield ++ " != " ++ ph, params1, c1)
  | .GREATER => .ok (ffield ++ " > " ++ ph, params1, c1)
  | .GREATER_OR_EQUAL => .ok (ffield ++ " >= " ++ ph, params1, c1)
  | .LESS => .ok (ffield ++ " < " ++ ph, params1, c1)
  | .LESS_OR_EQUAL => .ok (ffield ++ " <= " ++ ph, params1, c1)
  | .LIKE => .ok (ffield ++ " LIKE " ++ ph, params1, c1)
  | .NOT_LIKE => .ok (ffield ++ " NOT LIKE " ++ ph, params1, c1)
  | _ => .error .attributeError

/-- Embeds the filter loop of `_process_filters_recursive`: fragments are
appended to the running text with no separator, the parameter dict and counter
thread through, and exceptions abort the whole call. -/
def renderLeafFilters (m : Mapping) : List Filter → String → Params → Nat →
    Except PyErr (String × Params × Nat)
  | [], text, params, c => .ok (text, params, c)
  | f :: rest, text, params, c => do
    let (frag, params1, c1) ← renderFilterFragment m f params c
    renderLeafFilters m rest (text ++ frag) params1 c1

/-- Embeds `SqlConverter._process_filters_recursive` (lines 68-237):
And / Or render `(left OP right)` with the left subtree first and the counter
advanced by the number of parameters the left subtree returned; Not renders
`NOT (inner)`; a leaf runs the filter loop with a fresh text and dict.  The
fresh `parameters` dict of each call is updated with the children's dicts. -/
def processFiltersRec (m : Mapping) : Criteria → Nat → Except PyErr (String × Params)
  | .leaf fs _, c => do
    let (text, params, _) ← renderLeafFilters m fs "" [] c
    .ok (text, params)
  | .and l r, c => do
    let (lc, lp) ← processFiltersRec m l c
    let (rc, rp) ← processFiltersRec m r (c + lp.length)
    .ok ("(" ++ lc ++ " AND " ++ rc ++ ")", dictUpdate (dictUpdate [] lp) rp)
  | .or l r, c => do
    let (lc, lp) ← processFiltersRec m l c
    let (rc, rp) ← processFiltersRec m r (c + lp.length)
    .ok ("(" ++ lc ++ " OR " ++ rc ++ ")", dictUpdate (dictUpdate [] lp) rp)
  | .not inner, c => do
    let (ic, ip) ← processFiltersRec m inner c
    .ok ("NOT (" ++ ic ++ ")", dictUpdate [] ip)

/-- Embeds Python `str.rstrip(', ')`: strips every trailing comma or space. -/
def pyRstripCommaSpace (s : String) : String :=
  String.mk ((s.data.reverse.dropWhile (fun c => c == ',' || c == ' ')).reverse)

/-- Embeds `SqlConverter._process_orders` (lines 239-266): each order of the
flattened view renders as `field ASC, ` / `field DESC, ` and the trailing
joiner is stripped.  The `criteria.orders` property iterated by the source is
absent from src/criteria.py and is modelled from the spec as the flattened
orders view `specOrders` (spec sections 3 and 4.4). -/
def processOrders (m : Mapping) (e : Criteria) : String :=
  pyRstripCommaSpace
    ((specOrders e).foldl
      (fun acc o =>
        acc ++ mappingGet m o.field ++
          (match o.direction with
           | .ASC => " ASC, "
           | .DESC => " DESC, "))
      "")

/-- Embeds `SqlConverter.convert` (lines 16-52): builds
`SELECT <columns> FROM <table>`, appends ` WHERE <condition>` when the
criteria has filters (replacing the empty parameter dict with the processed
one, and propagating any exception), appends ` ORDER BY <order-list>` when it
has orders, and terminates the query with `;`. -/
def convert (e : Criteria) (table : String) (columns : List String)
    (m : Mapping) : Except PyErr (String × Params) :=
  let query := "SELECT " ++ String.intercalate ", " columns ++ " FROM " ++ table
  if hasFilters e then
    match processFiltersRec m e 0 with
    | .error err => .error err
    | .ok (w, p) =>
      let query1 := query ++ " WHERE " ++ w
      let query2 := if hasOrders e then query1 ++ " ORDER BY " ++ processOrders m e else query1
      .ok (query2 ++ ";", p)
  else
    let query2 := if hasOrders e then query ++ " ORDER BY " ++ processOrders m e else query
    .ok (query2 ++ ";", [])

end SqlConverter

/-! ## Claim theorems -/

/-- Claim C1: the claim states that a CONTAINS filter compiles to the
wildcard-wrapped fragment `field LIKE '%%' || :p || '%%'` with one parameter.
In the source, `FilterOperator.CONTAINS` is a StrEnum alias of the `LIKE`
member, so the converter's `case FilterOperator.LIKE` matches first and the
filter renders as the plain template `name LIKE %(parameter_0)s` — exactly one
parameter is allocated, but the wildcard wrapping asserted by the claim (and
by the repository's own test `test_sql_converter_with_contains_filter`) never
happens. -/
theorem contains_filter_renders_plain_like :
    SqlConverter.convert (.leaf [⟨"name", FilterOperator.CONTAINS, .str "John"⟩] [])
      "user" ["id", "name", "email"] [] =
      .ok ("SELECT id, name, email FROM user WHERE name LIKE %(parameter_0)s;",
        [("parameter_0", Value.str "John")]) := rfl

/-- Claim C2: the claim states that the operator catalog has exactly 20
pairwise-distinct variants including NOT_STARTS_WITH and NOT_ENDS_WITH, with
identity as a variant tag, never the rendered surface text.  In the source
enum, identity is precisely the string value: CONTAINS, STARTS_WITH and
ENDS_WITH are the very same member as LIKE, NOT_CONTAINS is the same member as
NOT_LIKE, the names NOT_STARTS_WITH and NOT_ENDS_WITH do not resolve at all,
and only 14 distinct members exist. -/
theorem operator_catalog_collapses_to_14_members :
    FilterOperator.CONTAINS = FilterOperator.LIKE ∧
    FilterOperator.STARTS_WITH = FilterOperator.LIKE ∧
    FilterOperator.ENDS_WITH = FilterOperator.LIKE ∧
    FilterOperator.NOT_CONTAINS = FilterOperator.NOT_LIKE ∧
    FilterOperator.memberNamed "NOT_STARTS_WITH" = none ∧
    FilterOperator.memberNamed "NOT_ENDS_WITH" = none ∧
    FilterOperator.members.length = 14 ∧
    FilterOperator.members.Nodup ∧
    ∀ o : FilterOperator, o ∈ FilterOperator.members :=
  ⟨rfl, rfl, rfl, rfl, rfl, rfl, rfl, by decide, by decide⟩

/-- Claim C3: the claim states that every top-level compile returns a parameter
mapping exactly matching the rendered placeholders, with zero-arity operators
(IS_NULL / IS_NOT_NULL) not advancing the counter.  In the source, compiling an
IS_NULL filter never returns at all: the converter's match statement evaluates
the pattern `FilterOperator.NOT_STARTS_WITH` — a member the StrEnum does not
define — before reaching the IS_NULL case, raising `AttributeError`, although
the repository's own test `test_sql_converter_with_is_null_filter` asserts a
successful query with an empty mapping. -/
theorem is_null_filter_compile_raises_attribute_error :
    SqlConverter.convert (.leaf [⟨"email", .IS_NULL, .null⟩] [])
      "user" ["id", "name", "email"] [] = .error .attributeError := rfl

/-- Claim C4: the claim states that the flattened view `filters(e)` is defined
for every Expression of any nesting depth and equals the depth-first
left-to-right union over Leaf descendants.  In the source,
`AndCriteria.filters` and `OrCriteria.filters` read `self.left._filters` and
`self.right._filters` directly; composite children never assign the `_filters`
attribute, so a tree nested two levels deep raises `AttributeError` (here
`none`), while the spec's recursive union (second conjunct) is total and
yields all three filters. -/
theorem nested_composite_filters_view_fails :
    filtersProperty
      (.and (.and (.leaf [⟨"a", .EQUAL, .int 1⟩] []) (.leaf [⟨"b", .EQUAL, .int 2⟩] []))
        (.leaf [⟨"c", .EQUAL, .int 3⟩] [])) = none ∧
    specFilters
      (.and (.and (.leaf [⟨"a", .EQUAL, .int 1⟩] []) (.leaf [⟨"b", .EQUAL, .int 2⟩] []))
        (.leaf [⟨"c", .EQUAL, .int 3⟩] [])) =
      [⟨"a", .EQUAL, .int 1⟩, ⟨"b", .EQUAL, .int 2⟩, ⟨"c", .EQUAL, .int 3⟩] := ⟨rfl, rfl⟩

/-- Claim C5: the claim states that CONTAINS evaluates as a substring test, and
in particular that the record of the repository's parser test satisfies
CONTAINS(str_value, "sit").  In the source, CONTAINS is the same StrEnum member
as LIKE, so `_evaluate_filter` performs an anchored full-string pattern match
of "sit" against the whole value and returns `False` — although "sit" really
does occur as a substring (third conjunct) and the repository's own test
expects `True`. -/
theorem contains_evaluation_contradicts_substring_test :
    validateObject
      [("lt_value", .int 10), ("gt_value", .int 5),
        ("str_value", .str "lorem ipsum dolor sit amet")]
      (.leaf [⟨"str_value", FilterOperator.CONTAINS, .str "sit"⟩] []) = .ok false ∧
    evaluateFilter (.str "lorem ipsum dolor sit amet")
      ⟨"str_value", FilterOperator.CONTAINS, .str "sit"⟩ = .ok false ∧
    List.IsInfix "sit".data "lorem ipsum dolor sit amet".data :=
  ⟨rfl, rfl, by decide⟩

/-- Claim C6: the claim states that compiling
And(leaf [EQUAL name], leaf [IS_NOT_NULL email]) yields
`(name = :parameter_0 AND email IS NOT NULL)` with a single parameter, in
either operand order.  In the source, rendering the IS_NOT_NULL leaf raises
`AttributeError` (the match statement evaluates the undefined member
`FilterOperator.NOT_STARTS_WITH` before reaching the IS_NOT_NULL case), so the
whole compile call fails in both orders instead of returning the text asserted
by the repository's own test `test_sql_converter_with_and_criteria`. -/
theorem and_with_is_not_null_compile_raises_attribute_error :
    SqlConverter.convert
      (.and (.leaf [⟨"name", .EQUAL, .str "John Doe"⟩] [])
        (.leaf [⟨"email", .IS_NOT_NULL, .null⟩] [])) "user" ["*"] [] =
      .error .attributeError ∧
    SqlConverter.convert
      (.and (.leaf [⟨"email", .IS_NOT_NULL, .null⟩] [])
        (.leaf [⟨"name", .EQUAL, .str "John Doe"⟩] [])) "user" ["*"] [] =
      .error .attributeError := ⟨rfl, rfl⟩

/-- Claim C7 (counterexample): the claim states that a BETWEEN filter with a
malformed (non-pair) value makes evaluation fail with a value-shape error and
never return a boolean, regardless of the record's field value.  Against the
empty record the field value is the null sentinel, the evaluator's
missing-value short-circuit fires before the shape check, and evaluation
returns the boolean `false`. -/
theorem between_malformed_with_null_field_returns_boolean :
    validateObject [] (.leaf [⟨"age", .BETWEEN, .int 5⟩] []) = .ok false ∧
    evaluateFilter Value.null ⟨"age", .BETWEEN, .int 5⟩ = .ok false := ⟨rfl, rfl⟩

/-- Claim C7 (amended): for every field value that is present and neither the
null sentinel nor a string, evaluating a BETWEEN / NOT_BETWEEN filter whose
value is not a 2-element list/tuple fails with the value-shape `ValueError`
and never returns a boolean. -/
theorem between_malformed_value_shape_error (v : Value) (f : Filter)
    (hnull : v.isNull = false) (hstr : v.isStr = false)
    (hop : f.operator = .BETWEEN ∨ f.operator = .NOT_BETWEEN)
    (hshape : f.value.isTwoElementList = false) :
    evaluateFilter v f =
      .error (.valueError (if f.operator = .BETWEEN
        then "BETWEEN operator requires a 2-element list/tuple as value"
        else "NOT BETWEEN operator requires a 2-element list/tuple as value")) := by
  obtain ⟨fld, op, fv⟩ := f
  simp only at hshape ⊢
  rcases hop with rfl | rfl <;>
    cases v with
    | null => simp [Value.isNull] at hnull
    | str s => simp [Value.isStr] at hstr
    | int n =>
      cases fv with
      | null => rfl
      | str s2 => rfl
      | int m2 => rfl
      | bool b2 => rfl
      | list vs2 =>
        cases vs2 with
        | nil => rfl
        | cons a2 tl =>
          cases tl with
          | nil => rfl
          | cons c2 tl2 =>
            cases tl2 with
            | nil => simp [Value.isTwoElementList] at hshape
            | cons d2 tl3 => rfl
    | bool b =>
      cases fv with
      | null => rfl
      | str s2 => rfl
      | int m2 => rfl
      | bool b2 => rfl
      | list vs2 =>
        cases vs2 with
        | nil => rfl
        | cons a2 tl =>
          cases tl with
          | nil => rfl
          | cons c2 tl2 =>
            cases tl2 with
            | nil => simp [Value.isTwoElementList] at hshape
            | cons d2 tl3 => rfl
    | list vs =>
      cases fv with
      | null => rfl
      | str s2 => rfl
      | int m2 => rfl
      | bool b2 => rfl
      | list vs2 =>
        cases vs2 with
        | nil => rfl
        | cons a2 tl =>
          cases tl with
          | nil => rfl
          | cons c2 tl2 =>
            cases tl2 with
            | nil => simp [Value.isTwoElementList] at hshape
            | cons d2 tl3 => rfl

/-- Claim C7 (witness): the amended theorem applied to the concrete field value
3 and the filter BETWEEN(age, 5). -/
theorem between_malformed_value_shape_error_witness :
    Value.isNull (.int 3) = false ∧ Value.isStr (.int 3) = false ∧
    Value.isTwoElementList (Value.int 5) = false ∧
    evaluateFilter (.int 3) ⟨"age", .BETWEEN, .int 5⟩ =
      .error (.valueError "BETWEEN operator requires a 2-element list/tuple as value") :=
  ⟨rfl, rfl, rfl,
    between_malformed_value_shape_error (.int 3) ⟨"age", .BETWEEN, .int 5⟩
      rfl rfl (Or.inl rfl) rfl⟩

/-- Claim C8: IS_NULL evaluates to true exactly when the field value is the
null/missing sentinel, IS_NOT_NULL to its negation, and every other operator
evaluates to false (never true, never an error) when the field value is the
sentinel — the evaluator tests the two null operators first and then
short-circuits `None` values to `False`. -/
theorem is_null_semantics_and_null_short_circuit (v : Value) (f : Filter) :
    (f.operator = .IS_NULL → evaluateFilter v f = .ok v.isNull) ∧
    (f.operator = .IS_NOT_NULL → evaluateFilter v f = .ok (!v.isNull)) ∧
    (f.operator ≠ .IS_NULL → f.operator ≠ .IS_NOT_NULL →
      evaluateFilter Value.null f = .ok false) := by
  refine ⟨fun h => ?_, fun h => ?_, fun h1 h2 => ?_⟩
  · simp [evaluateFilter, h]
  · simp [evaluateFilter, h]
  · simp [evaluateFilter, h1, h2, Value.isNull]

/-- Claim C8 (witness): the theorem applied to the value 7 (non-null) for the
two null operators and to the null sentinel for EQUAL. -/
theorem is_null_semantics_and_null_short_circuit_witness :
    evaluateFilter (.int 7) ⟨"x", .IS_NULL, .null⟩ = .ok false ∧
    evaluateFilter (.int 7) ⟨"x", .IS_NOT_NULL, .null⟩ = .ok true ∧
    evaluateFilter Value.null ⟨"x", .EQUAL, .int 1⟩ = .ok false :=
  ⟨(is_null_semantics_and_null_short_circuit (.int 7) ⟨"x", .IS_NULL, .null⟩).1 rfl,
    (is_null_semantics_and_null_short_circuit (.int 7) ⟨"x", .IS_NOT_NULL, .null⟩).2.1 rfl,
    (is_null_semantics_and_null_short_circuit Value.null ⟨"x", .EQUAL, .int 1⟩).2.2
      (by decide) (by decide)⟩

/-- Claim C9: for every Expression without filters, the compiled query consists
of the SELECT segment, the optional ORDER BY segment and the terminator only —
the WHERE segment is omitted and the parameter mapping is empty — and
validation returns true for every record (vacuous AND). -/
theorem no_filters_no_where_clause_and_vacuous_true (e : Criteria)
    (h : hasFilters e = false) (rec : Record) (t : String) (cols : List String)
    (m : Mapping) :
    SqlConverter.convert e t cols m =
      .ok ("SELECT " ++ String.intercalate ", " cols ++ " FROM " ++ t ++
        (if hasOrders e then " ORDER BY " ++ SqlConverter.processOrders m e else "") ++
        ";", []) ∧
    validateObject rec e = .ok true := by
  constructor
  · unfold SqlConverter.convert
    rw [h]
    cases hho : hasOrders e <;>
      simp [hho, String.append_assoc, String.append_empty]
  · unfold validateObject
    rw [h]
    simp

/-- Claim C9 (witness): the theorem applied to a leaf with no filters and one
order, on a concrete record. -/
theorem no_filters_no_where_clause_and_vacuous_true_witness :
    hasFilters (Criteria.leaf [] [⟨"name", .ASC⟩]) = false ∧
    SqlConverter.convert (Criteria.leaf [] [⟨"name", .ASC⟩]) "t" ["*"] [] =
      .ok ("SELECT * FROM t ORDER BY name ASC;", []) ∧
    validateObject [("k", .int 0)] (Criteria.leaf [] [⟨"name", .ASC⟩]) = .ok true :=
  ⟨rfl,
    (no_filters_no_where_clause_and_vacuous_true (Criteria.leaf [] [⟨"name", .ASC⟩])
      rfl [("k", .int 0)] "t" ["*"] []).1,
    (no_filters_no_where_clause_and_vacuous_true (Criteria.leaf [] [⟨"name", .ASC⟩])
      rfl [("k", .int 0)] "t" ["*"] []).2⟩

/-- Claim C10: evaluating a filter whose operator is one of the textual
operators that exist in the enum (LIKE, NOT_LIKE, and the aliased CONTAINS,
NOT_CONTAINS, STARTS_WITH, ENDS_WITH; NOT_STARTS_WITH and NOT_ENDS_WITH are
not members, so no filter can carry them) against a field value that is
present but neither null nor a string raises
`ValueError('Unsupported filter operator: ...')` instead of returning a
boolean. -/
theorem textual_operator_on_nontextual_value_raises_value_error (v : Value)
    (f : Filter) (hnull : v.isNull = false) (hstr : v.isStr = false)
    (hop : f.operator = FilterOperator.LIKE ∨ f.operator = FilterOperator.NOT_LIKE ∨
      f.operator = FilterOperator.CONTAINS ∨ f.operator = FilterOperator.NOT_CONTAINS ∨
      f.operator = FilterOperator.STARTS_WITH ∨ f.operator = FilterOperator.ENDS_WITH) :
    evaluateFilter v f =
      .error (.valueError ("Unsupported filter operator: " ++ f.operator.value)) := by
  obtain ⟨fld, op, fv⟩ := f
  have hop2 : op = FilterOperator.LIKE ∨ op = FilterOperator.NOT_LIKE := by
    rcases hop with h | h | h | h | h | h <;>
      first
        | exact Or.inl h
        | exact Or.inr h
  cases v with
  | null => simp [Value.isNull] at hnull
  | str s => simp [Value.isStr] at hstr
  | int n => rcases hop2 with rfl | rfl <;> rfl
  | bool b => rcases hop2 with rfl | rfl <;> rfl
  | list vs => rcases hop2 with rfl | rfl <;> rfl

/-- Claim C10 (witness): the theorem applied to the integer field value 5 and a
CONTAINS filter; the reported operator string is `LIKE`, the value of the
member CONTAINS aliases. -/
theorem textual_operator_on_nontextual_value_raises_value_error_witness :
    Value.isNull (.int 5) = false ∧ Value.isStr (.int 5) = false ∧
    evaluateFilter (.int 5) ⟨"s", FilterOperator.CONTAINS, .str "a"⟩ =
      .error (.valueError "Unsupported filter operator: LIKE") :=
  ⟨rfl, rfl,
    textual_operator_on_nontextual_value_raises_value_error (.int 5)
      ⟨"s", FilterOperator.CONTAINS, .str "a"⟩ rfl rfl
      (Or.inr (Or.inr (Or.inl rfl)))⟩

end CriteriaPattern
